import Mathlib

/-!
Verification of the Juju Dashboard aggregation-and-filtering core.

Shallow embedding of the aggregation/filtering layer of the dashboard
(`utils/db.py`, the flagged-issues route of `main.py`, and the issue-summary
counters of `pages/3_Flagged_Issues.py`), together with theorems settling the
frozen claims about it.

Modelling conventions:
* Timestamps (`created_at`) are embedded as natural numbers (seconds since the
  epoch); the UTC calendar date of a timestamp is its quotient by 86400.
* Nullable numeric columns are `Option ℚ`; nullable boolean columns are
  `Option Bool`; nullable text columns are `Option String`.  A `none` entry
  models a SQL NULL, which pandas renders as NaN/None inside a dataframe.
* A floating-point value that may be NaN (as produced by `DataFrame.mean()`
  on an all-null column) is a `PyFloat`: either `nan` or an exact rational.
  `pandas.Series.mean` skips nulls and returns NaN when no non-null value
  exists; Python's `x or y` returns `x` when `x` is truthy, and NaN is truthy
  while `0.0` is falsy.  Python's `round(x, d)` is embedded as rounding the
  rational `x * 10^d` to the nearest integer (tie behaviour is irrelevant to
  every claim below).
* The Supabase store is embedded as in-memory lists of rows; a query with
  `order("created_at", desc=True)` is a descending insertion sort, and
  `range(offset, offset+limit-1)` is `drop offset` followed by `take limit`.
-/

attribute [local semireducible] Rat.add Rat.mul Rat.inv Rat.sub

/-- A row of the `juju_messages` table (the columns the core reads). -/
structure Msg where
  id : Nat
  created_at : Nat
  question : Option String
  response : Option String
  response_time_ms : Option ℚ
deriving DecidableEq

/-- A row of the `juju_evaluations` table (the columns the core reads). -/
structure Evaluation where
  message_id : Nat
  faithfulness_score : Option ℚ
  hallucination_detected : Option Bool
  capability_hallucination : Option Bool
  citation_accurate : Option Bool
  question_type : Option String
  question_complexity : Option String
  is_high_risk_topic : Option Bool
deriving DecidableEq

/-- A message left-joined with its evaluation (`ev = none` when the left join
found no evaluation row, i.e. every evaluation column of the merged frame is
null for this row). -/
structure JRec where
  msg : Msg
  ev : Option Evaluation
deriving DecidableEq

/-- The `question_type` column of a merged row (null when no evaluation). -/
def JRec.qtype (r : JRec) : Option String :=
  r.ev.bind Evaluation.question_type

/-- The `question_complexity` column of a merged row. -/
def JRec.qcomplexity (r : JRec) : Option String :=
  r.ev.bind Evaluation.question_complexity

/-- The `is_high_risk_topic` column of a merged row. -/
def JRec.highRisk (r : JRec) : Option Bool :=
  r.ev.bind Evaluation.is_high_risk_topic

/-- The `faithfulness_score` column of a merged row. -/
def JRec.fscore (r : JRec) : Option ℚ :=
  r.ev.bind Evaluation.faithfulness_score

/-- A Python float that may be NaN (e.g. the mean of an all-null column). -/
inductive PyFloat where
  | nan : PyFloat
  | val : ℚ → PyFloat
deriving DecidableEq

/-- Python truthiness of a float: NaN is truthy, `0.0` is the only falsy
float. -/
def PyFloat.truthy : PyFloat → Bool
  | .nan => true
  | .val q => decide (q ≠ 0)

/-- Python's `x or d` for a float `x` and a (non-zero-safe) default `d`:
returns `x` unless `x` is falsy. -/
def pyOr (x : PyFloat) (d : ℚ) : PyFloat :=
  if x.truthy then x else .val d

/-- Python's `round(q, d)` on an exact rational, tie behaviour aside. -/
def roundQ (d : Nat) (q : ℚ) : ℚ :=
  ((round (q * (10 : ℚ) ^ d) : ℤ) : ℚ) / (10 : ℚ) ^ d

/-- Python's `round(x, d)`; `round(nan, d)` is NaN. -/
def roundPF (d : Nat) : PyFloat → PyFloat
  | .nan => .nan
  | .val q => .val (roundQ d q)

/-- Embeds `pandas.Series.mean()` over a nullable column: skip nulls, NaN when no
non-null value remains. -/
def meanOpt (xs : List (Option ℚ)) : PyFloat :=
  let vs := xs.filterMap id
  match vs.length with
  | 0 => .nan
  | _ => .val (vs.sum / (vs.length : ℚ))

/-- Concatenation of the images of `f` (kept as a first-order recursion so the
induction proofs below stay elementary). -/
def flatMapL (f : α → List β) : List α → List β
  | [] => []
  | a :: as => f a ++ flatMapL f as

/-- Tests whether `needle` occurs at the head of `hay`. -/
def startsW : List Char → List Char → Bool
  | [], _ => true
  | _ :: _, [] => false
  | a :: as, b :: bs => a == b && startsW as bs

/-- Tests whether `needle` occurs somewhere inside `hay` (plain substring containment, the
effect of `str.contains` on a pattern without regex metacharacters). -/
def hasSub (needle : List Char) : List Char → Bool
  | [] => needle.isEmpty
  | c :: t => startsW needle (c :: t) || hasSub needle t

/-- Embeds `Series.str.contains(s, case=False, na=False)` on one cell: a null cell
never matches; otherwise case-insensitive substring containment (both sides
lowercased character-wise). -/
def matchesText (s : String) (t : Option String) : Bool :=
  match t with
  | none => false
  | some txt => hasSub (s.data.map Char.toLower) (txt.data.map Char.toLower)

/-- The search mask of `get_messages` / `get_messages_with_evals`: match on
`question` OR `response`. -/
def matchesSearch (s : String) (m : Msg) : Bool :=
  matchesText s m.question || matchesText s m.response

/-- The `gte("created_at", start)` / `lte("created_at", end)` filters (each
applied only when the bound is supplied). -/
def inRange (sd ed : Option Nat) (t : Nat) : Bool :=
  (match sd with
   | some s => decide (s ≤ t)
   | none => true) &&
  (match ed with
   | some e2 => decide (t ≤ e2)
   | none => true)

/-- Insert into a list kept in descending `created_at` order. -/
def insertDesc (m : Msg) : List Msg → List Msg
  | [] => [m]
  | x :: xs => if x.created_at < m.created_at then m :: x :: xs else x :: insertDesc m xs

/-- Embeds `order("created_at", desc=True)`: sort newest-first. -/
def sortDesc : List Msg → List Msg
  | [] => []
  | m :: ms => insertDesc m (sortDesc ms)

/-- Insert into a list of naturals kept ascending. -/
def insertAsc (d : Nat) : List Nat → List Nat
  | [] => [d]
  | x :: xs => if d ≤ x then d :: x :: xs else x :: insertAsc d xs

/-- Sort a list of naturals ascending. -/
def sortAscNat : List Nat → List Nat
  | [] => []
  | d :: ds => insertAsc d (sortAscNat ds)

/-- Remove duplicates from a list of naturals (which occurrence survives is
irrelevant once sorted). -/
def dedupNat : List Nat → List Nat
  | [] => []
  | d :: ds => if ds.contains d then dedupNat ds else d :: dedupNat ds

/-- The UTC calendar date of a timestamp (`pd.to_datetime(...).dt.date`). -/
def dateOf (t : Nat) : Nat :=
  t / 86400

/-- The message fetch shared by `get_messages` and `get_messages_with_evals`:
date-range filters, newest-first order, then the `(limit, offset)` page via
`range(offset, offset + limit - 1)`. -/
def fetchMessages (msgStore : List Msg) (sd ed : Option Nat) (limit offset : Nat) : List Msg :=
  ((sortDesc (msgStore.filter (fun m => inRange sd ed m.created_at))).drop offset).take limit

/-- Embeds `in_("message_id", message_ids)` over the evaluations table. -/
def evalsFor (evalStore : List Evaluation) (ids : List Nat) : List Evaluation :=
  evalStore.filter (fun e => decide (e.message_id ∈ ids))

/-- Embeds `get_messages` (db.py lines 23-52): fetch the page, then — only when the
search text is truthy and the page is non-empty — apply the search mask in
application memory. -/
def get_messages (msgStore : List Msg) (limit offset : Nat) (search : Option String)
    (sd ed : Option Nat) : List Msg :=
  let df := fetchMessages msgStore sd ed limit offset
  match search with
  | none => df
  | some s =>
    if s = "" then df
    else if df.isEmpty then df
    else df.filter (fun m => matchesSearch s m)

/-- The left-join rows contributed by one message: one row per matching
evaluation, or a single all-null-evaluation row when none matches (pandas
`merge(..., how="left")`). -/
def joinOne (evals : List Evaluation) (m : Msg) : List JRec :=
  let ms := evals.filter (fun e => decide (e.message_id = m.id))
  if ms.isEmpty then [⟨m, none⟩] else ms.map (fun e => ⟨m, some e⟩)

/-- Embeds `messages_df.merge(evals_df, left_on="id", right_on="message_id",
how="left")`: left-row order is preserved. -/
def leftJoinL (msgs : List Msg) (evals : List Evaluation) : List JRec :=
  flatMapL (joinOne evals) msgs

/-- Embeds `messages_df.merge(flagged_evals, ..., how="inner")`: only matched rows,
left-row order preserved. -/
def innerJoinL (msgs : List Msg) (evals : List Evaluation) : List JRec :=
  flatMapL (fun m =>
    (evals.filter (fun e => decide (e.message_id = m.id))).map (fun e => ⟨m, some e⟩)) msgs

/-- The search filter of `get_messages_with_evals` (applied only when the
search text is truthy). -/
def applySearch (search : Option String) (l : List JRec) : List JRec :=
  match search with
  | none => l
  | some s => if s = "" then l else l.filter (fun r => matchesSearch s r.msg)

/-- The `question_type` filter: applied only when the value is truthy and not
`"All"`; an exact equality test against the merged column. -/
def applyQType (question_type : Option String) (l : List JRec) : List JRec :=
  match question_type with
  | none => l
  | some qt =>
    if qt = "" then l
    else if qt = "All" then l
    else l.filter (fun r => decide (JRec.qtype r = some qt))

/-- The `question_complexity` filter, same shape as the `question_type` one. -/
def applyComplexity (complexity : Option String) (l : List JRec) : List JRec :=
  match complexity with
  | none => l
  | some c =>
    if c = "" then l
    else if c = "All" then l
    else l.filter (fun r => decide (JRec.qcomplexity r = some c))

/-- The `high_risk_only` filter: `merged["is_high_risk_topic"] == True`. -/
def applyHighRisk (high_risk_only : Bool) (l : List JRec) : List JRec :=
  match high_risk_only with
  | true => l.filter (fun r => decide (JRec.highRisk r = some true))
  | false => l

/-- The join-and-filter stage of `get_messages_with_evals` (db.py lines
98-121), taking the already-fetched message page and evaluation rows: when
the evaluation frame is empty the function returns the message frame as-is
(every evaluation column absent, and no filter applied); otherwise it left
joins and applies the four filters in source order. -/
def joinAndFilter (messages : List Msg) (evals : List Evaluation)
    (search question_type complexity : Option String) (high_risk_only : Bool) : List JRec :=
  match evals.isEmpty with
  | true => messages.map (fun m => ⟨m, none⟩)
  | false =>
    applyHighRisk high_risk_only
      (applyComplexity complexity
        (applyQType question_type
          (applySearch search (leftJoinL messages evals))))

/-- Embeds `get_messages_with_evals` (db.py lines 65-121): fetch the page, return
empty on an empty page, otherwise fetch the evaluations for the page's ids
and run the join-and-filter stage. -/
def getMessagesWithEvals (msgStore : List Msg) (evalStore : List Evaluation)
    (limit offset : Nat) (search : Option String) (sd ed : Option Nat)
    (question_type complexity : Option String) (high_risk_only : Bool) : List JRec :=
  let messages := fetchMessages msgStore sd ed limit offset
  match messages.isEmpty with
  | true => []
  | false =>
    joinAndFilter messages (evalsFor evalStore (messages.map Msg.id))
      search question_type complexity high_risk_only

/-- The low-faithfulness disjunct of the flag mask (db.py line 147):
`evals_df["faithfulness_score"].fillna(1) < faithfulness_threshold` — a null
score is replaced by 1 before the comparison. -/
def lowFaithClause (t : ℚ) (e : Evaluation) : Bool :=
  decide (e.faithfulness_score.getD 1 < t)

/-- The flag mask of `get_flagged_messages` (db.py lines 144-149), the OR of
the four issue rules; a null boolean column entry never equals `True`/`False`
under pandas `==`. -/
def flagMask (t : ℚ) (e : Evaluation) : Bool :=
  decide (e.hallucination_detected = some true) ||
  decide (e.capability_hallucination = some true) ||
  lowFaithClause t e ||
  decide (e.citation_accurate = some false)

/-- The message fetch of `get_flagged_messages` (db.py lines 156-165):
`in_("id", message_ids)`, the optional date-range filters, newest-first
order, then `limit(limit)`. -/
def flaggedMsgFetch (msgStore : List Msg) (ids : List Nat) (sd ed : Option Nat)
    (limit : Nat) : List Msg :=
  (sortDesc ((msgStore.filter (fun m => decide (m.id ∈ ids))).filter
    (fun m => inRange sd ed m.created_at))).take limit

/-- Embeds `get_flagged_messages` (db.py lines 124-174): fetch every evaluation, keep
the flagged ones, fetch the corresponding messages, inner-join. -/
def getFlaggedMessages (msgStore : List Msg) (evalStore : List Evaluation)
    (limit : Nat) (t : ℚ) (sd ed : Option Nat) : List JRec :=
  match evalStore.isEmpty with
  | true => []
  | false =>
    let flagged := evalStore.filter (flagMask t)
    match flagged.isEmpty with
    | true => []
    | false =>
      let messages := flaggedMsgFetch msgStore (flagged.map Evaluation.message_id) sd ed limit
      match messages.isEmpty with
      | true => []
      | false => innerJoinL messages flagged

/-- The aggregate-metrics record returned by `get_metrics_summary`. -/
structure MetricsSummary where
  total_messages : Nat
  avg_response_time_ms : PyFloat
  avg_faithfulness : PyFloat
  hallucination_rate : PyFloat
  messages_today : Nat
deriving DecidableEq

/-- The message fetch of `get_metrics_summary` (date-range filters only: no
order, no pagination). -/
def msMessages (msgStore : List Msg) (sd ed : Option Nat) : List Msg :=
  msgStore.filter (fun m => inRange sd ed m.created_at)

/-- The evaluation fetch of `get_metrics_summary`. -/
def msEvals (msgStore : List Msg) (evalStore : List Evaluation) (sd ed : Option Nat) :
    List Evaluation :=
  evalsFor evalStore ((msMessages msgStore sd ed).map Msg.id)

/-- Embeds `get_metrics_summary` (db.py lines 177-235).  `avg_faithfulness` is the
pandas mean of the whole `faithfulness_score` column (NaN if every entry is
null) when any evaluation row exists, else the literal 0; the final value is
`round(x or 0, 3)`.  `hallucination_rate` divides the count of
`hallucination_detected` trues by the number of evaluation rows.  `today` is
the current UTC calendar date. -/
def getMetricsSummary (msgStore : List Msg) (evalStore : List Evaluation)
    (sd ed : Option Nat) (today : Nat) : MetricsSummary :=
  match (msMessages msgStore sd ed).isEmpty with
  | true => ⟨0, .val 0, .val 0, .val 0, 0⟩
  | false =>
    let messages := msMessages msgStore sd ed
    let evals := msEvals msgStore evalStore sd ed
    let avg_response_time := meanOpt (messages.map Msg.response_time_ms)
    let messages_today := (messages.filter (fun m => decide (dateOf m.created_at = today))).length
    let avg_faithfulness :=
      match evals.isEmpty with
      | true => PyFloat.val 0
      | false => meanOpt (evals.map Evaluation.faithfulness_score)
    let hallucination_rate : ℚ :=
      match evals.isEmpty with
      | true => 0
      | false =>
        ((evals.filter (fun e => decide (e.hallucination_detected = some true))).length : ℚ) /
          (evals.length : ℚ)
    ⟨messages.length, roundPF 0 (pyOr avg_response_time 0), roundPF 3 (pyOr avg_faithfulness 0),
      .val (roundQ 1 (hallucination_rate * 100)), messages_today⟩

/-- A row of the merged frame inside `get_daily_metrics`, carrying exactly the
columns the `groupby("date").agg` reads plus the `message_id` column the left
join produced (null when the message matched no evaluation; in the
no-evaluations-at-all branch the code fabricates the two evaluation columns,
setting `faithfulness_score = None` and `hallucination_detected = False`). -/
structure DRow where
  date : Nat
  message_id : Option Nat
  response_time_ms : Option ℚ
  faithfulness_score : Option ℚ
  hallucination_detected : Option Bool
deriving DecidableEq

/-- The merged per-row frame of `get_daily_metrics` (db.py lines 265-281). -/
def dailyRows (messages : List Msg) (evals : List Evaluation) : List DRow :=
  match evals.isEmpty with
  | true =>
    messages.map (fun m => ⟨dateOf m.created_at, none, m.response_time_ms, none, some false⟩)
  | false =>
    flatMapL (fun m =>
      let ms := evals.filter (fun e => decide (e.message_id = m.id))
      if ms.isEmpty then [⟨dateOf m.created_at, none, m.response_time_ms, none, none⟩]
      else ms.map (fun e =>
        ⟨dateOf m.created_at, some e.message_id, m.response_time_ms,
          e.faithfulness_score, e.hallucination_detected⟩)) messages

/-- One output row of `get_daily_metrics` after the column rename. -/
structure DayBucket where
  date : Nat
  message_count : Nat
  avg_response_time : PyFloat
  avg_faithfulness : PyFloat
  hallucination_rate : ℚ
deriving DecidableEq

/-- One `groupby("date")` aggregate of `get_daily_metrics` (db.py lines
284-289): row count, null-skipping means, and the hallucination lambda
`x.sum() / len(x) * 100 if len(x) > 0 else 0` whose `len(x)` counts every row
of the group while `x.sum()` counts the `True` entries (nulls contribute
nothing to the sum but do count in `len`). -/
def mkBucket (rows : List DRow) (d : Nat) : DayBucket :=
  let g := rows.filter (fun r => decide (r.date = d))
  ⟨d, g.length, meanOpt (g.map DRow.response_time_ms), meanOpt (g.map DRow.faithfulness_score),
    match g.length with
    | 0 => 0
    | _ => ((g.filter (fun r => decide (r.hallucination_detected = some true))).length : ℚ) /
        (g.length : ℚ) * 100⟩

/-- The message fetch of `get_daily_metrics`: the start bound defaults to
`now - days` when absent, the end bound is applied only when supplied; no
order and no pagination. -/
def dmMessages (msgStore : List Msg) (days : Nat) (sd ed : Option Nat) (now : Nat) : List Msg :=
  let sd' := sd.getD (now - days * 86400)
  msgStore.filter (fun m =>
    decide (sd' ≤ m.created_at) &&
    (match ed with
     | some e2 => decide (m.created_at ≤ e2)
     | none => true))

/-- The merged frame of `get_daily_metrics` for the fetched messages. -/
def dmRows (msgStore : List Msg) (evalStore : List Evaluation)
    (days : Nat) (sd ed : Option Nat) (now : Nat) : List DRow :=
  let messages := dmMessages msgStore days sd ed now
  dailyRows messages (evalsFor evalStore (messages.map Msg.id))

/-- The rows of one calendar-day group of `get_daily_metrics`. -/
def dayRowsOf (msgStore : List Msg) (evalStore : List Evaluation)
    (days : Nat) (sd ed : Option Nat) (now : Nat) (d : Nat) : List DRow :=
  (dmRows msgStore evalStore days sd ed now).filter (fun r => decide (r.date = d))

/-- Embeds `get_daily_metrics` (db.py lines 238-294): empty frame on an empty fetch,
otherwise one bucket per distinct calendar date, ascending by date (pandas
`groupby` sorts its keys, and the code sorts by date again). -/
def getDailyMetrics (msgStore : List Msg) (evalStore : List Evaluation)
    (days : Nat) (sd ed : Option Nat) (now : Nat) : List DayBucket :=
  match (dmMessages msgStore days sd ed now).isEmpty with
  | true => []
  | false =>
    let rows := dmRows msgStore evalStore days sd ed now
    (sortAscNat (dedupNat (rows.map DRow.date))).map (mkBucket rows)

/-- Embeds `parse_date_range` (main.py lines 29-40): a named range resolves to a
start bound of `now` minus 7/30/90 days and no end bound. -/
def parse_date_range (rangeStr : String) (now : Nat) : Option Nat × Option Nat :=
  if rangeStr = "7d" then (some (now - 7 * 86400), none)
  else if rangeStr = "30d" then (some (now - 30 * 86400), none)
  else if rangeStr = "90d" then (some (now - 90 * 86400), none)
  else (none, none)

/-- The low-faithfulness test of the summary counter in `flagged_page`
(main.py line 188): `(m.get("faithfulness_score") or 1) < threshold`.  A null
score surfaces as NaN in the record dict; NaN is truthy, so `or` keeps it and
`NaN < threshold` is false.  A score of exactly `0.0` is falsy, so `or`
replaces it by 1. -/
def mainLowFaithTest (score : Option ℚ) (t : ℚ) : Bool :=
  match score with
  | none => false
  | some q => if q = 0 then decide ((1 : ℚ) < t) else decide (q < t)

/-- Embeds `low_faith_count` of `flagged_page` (main.py line 188). -/
def low_faith_count_main (flagged : List JRec) (t : ℚ) : Nat :=
  (flagged.filter (fun r => mainLowFaithTest (JRec.fscore r) t)).length

/-- The Low Faithfulness metric of the Issue Summary in
`pages/3_Flagged_Issues.py` line 71:
`len(df[df["faithfulness_score"] < faithfulness_threshold])` — a null score
(NaN) compares false, a score of 0 below the threshold is counted. -/
def low_faith_count_page (flagged : List JRec) (t : ℚ) : Nat :=
  (flagged.filter (fun r =>
    match JRec.fscore r with
    | some q => decide (q < t)
    | none => false)).length

/-- Embeds `halluc_count` of `flagged_page` (main.py line 186): Python truthiness of
the dict entry — `True` and NaN (a null column entry) are truthy, `False` is
falsy. -/
def halluc_count_main (flagged : List JRec) : Nat :=
  (flagged.filter (fun r => (r.ev.bind Evaluation.hallucination_detected).getD true)).length

/-- Embeds `cap_halluc_count` of `flagged_page` (main.py line 187). -/
def cap_halluc_count_main (flagged : List JRec) : Nat :=
  (flagged.filter (fun r => (r.ev.bind Evaluation.capability_hallucination).getD true)).length

/-- Embeds `bad_citation_count` of `flagged_page` (main.py line 189):
`m.get("citation_accurate") == False` (a null entry is not `False`). -/
def bad_citation_count_main (flagged : List JRec) : Nat :=
  (flagged.filter (fun r => decide (r.ev.bind Evaluation.citation_accurate = some false))).length

/-- The outcome of a request to the `/flagged` route: FastAPI rejects the
query parameters (HTTP 422) before the handler body runs, or the handler
renders the flagged list with its four summary counters. -/
inductive FlaggedPage where
  | validationFailure
  | page (flagged : List JRec) (halluc_count cap_halluc_count low_faith_count
      bad_citation_count : Nat)
deriving DecidableEq

/-- The `/flagged` route (main.py lines 166-207).  The declaration
`threshold: float = Query(0.7, ge=0, le=1)` makes FastAPI validate
`0 ≤ threshold ≤ 1` before the handler body executes, so an out-of-range
threshold yields a validation failure without any store access; the store
argument is `none` when the store is unreachable, in which case the handler's
`except` branch renders an empty page. -/
def flagged_page (rangeStr : String) (threshold : ℚ) (now : Nat)
    (store : Option (List Msg × List Evaluation)) : FlaggedPage :=
  if 0 ≤ threshold ∧ threshold ≤ 1 then
    let se := parse_date_range rangeStr now
    match store with
    | none => .page [] 0 0 0 0
    | some (ms, es) =>
      let flagged := getFlaggedMessages ms es 100 threshold se.1 se.2
      .page flagged (halluc_count_main flagged) (cap_halluc_count_main flagged)
        (low_faith_count_main flagged threshold) (bad_citation_count_main flagged)
  else .validationFailure

/-- The Low Faithfulness rule as the claim set words it: a returned record is
counted when its `faithfulness_score` is non-null and strictly below the
threshold.  Stated from the spec's words, for comparison with the two count
implementations above. -/
def specLowFaithCount (flagged : List JRec) (t : ℚ) : Nat :=
  (flagged.filter (fun r =>
    match JRec.fscore r with
    | some q => decide (q < t)
    | none => false)).length

/-- The per-day hallucination rate as the claim words it: the fraction of
`hallucination_detected` trues among the rows of the day that have an
evaluation (non-null `message_id` after the left join), times 100, else 0
when the day has no evaluated rows.  Stated from the spec's words, for
comparison with the aggregation the code performs. -/
def specHallucRatePerEvaluated (rows : List DRow) : ℚ :=
  let ev := rows.filter (fun r => decide (r.message_id ≠ none))
  match ev.length with
  | 0 => 0
  | _ => ((ev.filter (fun r => decide (r.hallucination_detected = some true))).length : ℚ) /
      (ev.length : ℚ) * 100

/-- Each message contributes at least one row to the left join: the number of
matching evaluations, or one all-null row when none matches. -/
def repCount (evals : List Evaluation) (m : Msg) : Nat :=
  max 1 ((evals.filter (fun e => decide (e.message_id = m.id))).length)

/-- Concrete input for C1: one message whose only evaluation has a null
`faithfulness_score`. -/
def msgC1 : Msg := ⟨1, 0, some "q", some "r", some 200⟩

/-- The evaluation of `msgC1`, with a null `faithfulness_score` and no other
issue. -/
def evalC1 : Evaluation := ⟨1, none, some false, some false, some true, none, none, some false⟩

/-- Concrete inputs for C2: two messages on the same UTC day, only the first
evaluated (with a detected hallucination). -/
def msgD1 : Msg := ⟨1, 8640000, some "a", some "b", some 100⟩

/-- Second message of the C2 scenario, same day, no evaluation row. -/
def msgD2 : Msg := ⟨2, 8640001, some "c", some "d", some 200⟩

/-- The single evaluation of the C2 scenario: `hallucination_detected`. -/
def evalD1 : Evaluation := ⟨1, some 1, some true, some false, some true, none, none, some false⟩

/-- Concrete input for C3: a message with no evaluation at all. -/
def msgC3 : Msg := ⟨1, 0, some "q", some "r", none⟩

/-- Concrete input for C4 and C5: a message whose evaluation has a null
score. -/
def msgC4 : Msg := ⟨2, 0, some "q", some "r", none⟩

/-- An evaluation with a null `faithfulness_score` and no other issue
(belongs to `msgC4`). -/
def evalNullScore : Evaluation :=
  ⟨2, none, some false, some false, some true, none, none, some false⟩

/-- Concrete input for C5: a message that has no evaluation row while another
message is flagged. -/
def msgC5 : Msg := ⟨9, 50, some "x", some "y", none⟩

/-- Concrete input for C6: a message whose evaluation has
`faithfulness_score = 0`. -/
def msgC6 : Msg := ⟨3, 0, some "q", some "r", some 100⟩

/-- The evaluation of `msgC6`: score exactly 0, no other issue. -/
def evalC6 : Evaluation :=
  ⟨3, some 0, some false, some false, some true, some "how_to", some "simple", some false⟩

/-- Concrete input for C9: a message with no evaluation row. -/
def msgA9 : Msg := ⟨1, 8640000, some "q", some "r", some 100⟩

/-- Concrete input for C10: newest message of the store, not matching the
search text. -/
def msgPg1 : Msg := ⟨1, 200, some "hello", some "world", none⟩

/-- Concrete input for C10: older message that matches the search text but
lies outside the one-element page. -/
def msgPg2 : Msg := ⟨2, 100, some "xyz question", some "resp", none⟩

/-- Concrete input for the C2 witness: one evaluated message with a detected
hallucination. -/
def msgW2 : Msg := ⟨1, 8640000, some "q", some "r", some 100⟩

/-- The evaluation of `msgW2`. -/
def evalW2 : Evaluation :=
  ⟨1, some (1/2), some true, some false, some true, none, none, some false⟩

/-- Concrete input for the C3 witness: an evaluation of `msgC3` with
`question_type = "how_to"`. -/
def evalE3 : Evaluation :=
  ⟨1, some (9/10), some false, some false, some true, some "how_to", some "simple", some false⟩

/-- Concrete input for the C5 witness: a message whose evaluation flags a
hallucination. -/
def msgC5flag : Msg := ⟨3, 60, some "f", some "g", none⟩

/-- The flagged evaluation of `msgC5flag`. -/
def evalC5 : Evaluation := ⟨3, some 0, some true, some false, some true, none, none, some false⟩

lemma mem_flatMapL {f : α → List β} {b : β} :
    ∀ {l : List α}, b ∈ flatMapL f l ↔ ∃ a, a ∈ l ∧ b ∈ f a := by
  intro l
  induction l with
  | nil => simp [flatMapL]
  | cons a as ih =>
    simp only [flatMapL, List.mem_append, ih, List.mem_cons]
    constructor
    · rintro (h | ⟨x, hx, hb⟩)
      · exact ⟨a, Or.inl rfl, h⟩
      · exact ⟨x, Or.inr hx, hb⟩
    · rintro ⟨x, hx | hx, hb⟩
      · exact Or.inl (hx ▸ hb)
      · exact Or.inr ⟨x, hx, hb⟩

lemma flatMapL_map (f : α → List β) (g : β → γ) (l : List α) :
    (flatMapL f l).map g = flatMapL (fun a => (f a).map g) l := by
  induction l with
  | nil => rfl
  | cons a as ih => simp [flatMapL, List.map_append, ih]

lemma mem_joinOne_msg {evals : List Evaluation} {m : Msg} {r : JRec}
    (h : r ∈ joinOne evals m) : r.msg = m := by
  simp only [joinOne] at h
  split at h
  · simp only [List.mem_singleton] at h
    subst h; rfl
  · obtain ⟨e, _, rfl⟩ := List.mem_map.mp h
    rfl

lemma mem_leftJoinL_msg {msgs : List Msg} {evals : List Evaluation} {r : JRec}
    (h : r ∈ leftJoinL msgs evals) : r.msg ∈ msgs := by
  obtain ⟨m, hm, hr⟩ := mem_flatMapL.mp h
  exact (mem_joinOne_msg hr) ▸ hm

lemma leftJoinL_nil (msgs : List Msg) :
    leftJoinL msgs [] = msgs.map (fun m => ⟨m, none⟩) := by
  induction msgs with
  | nil => rfl
  | cons m ms ih =>
    simp only [leftJoinL, flatMapL] at ih ⊢
    rw [ih]
    simp [joinOne]

lemma mem_innerJoinL {msgs : List Msg} {evals : List Evaluation} {r : JRec}
    (h : r ∈ innerJoinL msgs evals) :
    ∃ e, e ∈ evals ∧ e.message_id = r.msg.id := by
  obtain ⟨m, _, hr⟩ := mem_flatMapL.mp h
  obtain ⟨e, he, rfl⟩ := List.mem_map.mp hr
  obtain ⟨hee, hid⟩ := List.mem_filter.mp he
  exact ⟨e, hee, of_decide_eq_true hid⟩

lemma mem_applySearch {s : Option String} {l : List JRec} {r : JRec}
    (h : r ∈ applySearch s l) : r ∈ l := by
  cases s with
  | none => exact h
  | some s =>
    simp only [applySearch] at h
    split at h
    · exact h
    · exact (List.mem_filter.mp h).1

lemma mem_applyQType {q : Option String} {l : List JRec} {r : JRec}
    (h : r ∈ applyQType q l) : r ∈ l := by
  cases q with
  | none => exact h
  | some qt =>
    simp only [applyQType] at h
    split at h
    · exact h
    · split at h
      · exact h
      · exact (List.mem_filter.mp h).1

lemma mem_applyComplexity {c : Option String} {l : List JRec} {r : JRec}
    (h : r ∈ applyComplexity c l) : r ∈ l := by
  cases c with
  | none => exact h
  | some qc =>
    simp only [applyComplexity] at h
    split at h
    · exact h
    · split at h
      · exact h
      · exact (List.mem_filter.mp h).1

lemma mem_applyHighRisk {hr : Bool} {l : List JRec} {r : JRec}
    (h : r ∈ applyHighRisk hr l) : r ∈ l := by
  cases hr with
  | false => exact h
  | true => exact (List.mem_filter.mp h).1

lemma applyQType_active_pred {qt : String} {l : List JRec} {r : JRec}
    (h1 : qt ≠ "") (h2 : qt ≠ "All") (h : r ∈ applyQType (some qt) l) :
    JRec.qtype r = some qt := by
  simp only [applyQType, if_neg h1, if_neg h2] at h
  exact of_decide_eq_true (List.mem_filter.mp h).2

lemma applyComplexity_active_pred {qc : String} {l : List JRec} {r : JRec}
    (h1 : qc ≠ "") (h2 : qc ≠ "All") (h : r ∈ applyComplexity (some qc) l) :
    JRec.qcomplexity r = some qc := by
  simp only [applyComplexity, if_neg h1, if_neg h2] at h
  exact of_decide_eq_true (List.mem_filter.mp h).2

lemma ev_isSome_of_bind_some {r : JRec} {f : Evaluation → Option String} {s : String}
    (h : r.ev.bind f = some s) : r.ev.isSome = true := by
  cases hev : r.ev with
  | none => rw [hev] at h; exact absurd h (by simp)
  | some e => rfl

lemma mem_joinAndFilter_msg {msgs : List Msg} {evals : List Evaluation}
    {s q c : Option String} {hrisk : Bool} {r : JRec}
    (h : r ∈ joinAndFilter msgs evals s q c hrisk) : r.msg ∈ msgs := by
  cases evals with
  | nil =>
    simp only [joinAndFilter, List.isEmpty_nil] at h
    obtain ⟨m, hm, rfl⟩ := List.mem_map.mp h
    exact hm
  | cons e es =>
    exact mem_leftJoinL_msg
      (mem_applySearch (mem_applyQType (mem_applyComplexity (mem_applyHighRisk h))))

lemma mem_insertAscN {x d : Nat} : ∀ {l : List Nat}, x ∈ insertAsc d l → x = d ∨ x ∈ l := by
  intro l
  induction l with
  | nil => intro h; simp only [insertAsc, List.mem_singleton] at h; exact Or.inl h
  | cons a as ih =>
    intro h
    simp only [insertAsc] at h
    split at h
    · rcases List.mem_cons.mp h with h | h
      · exact Or.inl h
      · exact Or.inr h
    · rcases List.mem_cons.mp h with h | h
      · exact Or.inr (h ▸ List.mem_cons_self a as)
      · rcases ih h with h | h
        · exact Or.inl h
        · exact Or.inr (List.mem_cons_of_mem a h)

lemma mem_sortAscNat {x : Nat} : ∀ {l : List Nat}, x ∈ sortAscNat l → x ∈ l := by
  intro l
  induction l with
  | nil => intro h; exact absurd h (List.not_mem_nil x)
  | cons a as ih =>
    intro h
    rcases mem_insertAscN h with h | h
    · exact h ▸ List.mem_cons_self a as
    · exact List.mem_cons_of_mem a (ih h)

lemma mem_dedupNat {x : Nat} : ∀ {l : List Nat}, x ∈ dedupNat l → x ∈ l := by
  intro l
  induction l with
  | nil => intro h; exact absurd h (List.not_mem_nil x)
  | cons a as ih =>
    intro h
    simp only [dedupNat] at h
    split at h
    · exact List.mem_cons_of_mem a (ih h)
    · rcases List.mem_cons.mp h with h | h
      · exact h ▸ List.mem_cons_self a as
      · exact List.mem_cons_of_mem a (ih h)

lemma filterMap_id_eq_nil {xs : List (Option ℚ)} (h : ∀ x ∈ xs, x = none) :
    xs.filterMap id = [] := by
  induction xs with
  | nil => rfl
  | cons a as ih =>
    have ha := h a (List.mem_cons_self a as)
    subst ha
    simpa using ih (fun x hx => h x (List.mem_cons_of_mem _ hx))

lemma meanOpt_all_none {xs : List (Option ℚ)} (h : ∀ x ∈ xs, x = none) :
    meanOpt xs = PyFloat.nan := by
  simp only [meanOpt, filterMap_id_eq_nil h, List.length_nil]

lemma map_const_eq_replicate (l : List α) (b : β) :
    l.map (fun _ => b) = List.replicate l.length b := by
  induction l with
  | nil => rfl
  | cons a as ih => simp [ih, List.replicate_succ]

lemma joinOne_map_msg (evals : List Evaluation) (m : Msg) :
    (joinOne evals m).map JRec.msg = List.replicate (repCount evals m) m := by
  simp only [joinOne, repCount]
  split
  · rename_i h
    rw [List.isEmpty_iff] at h
    rw [h]
    rfl
  · rename_i h
    have hlen : (evals.filter (fun e => decide (e.message_id = m.id))).length ≠ 0 := by
      intro h0
      rw [List.length_eq_zero.mp h0] at h
      exact h rfl
    rw [List.map_map, Nat.max_eq_right (Nat.one_le_iff_ne_zero.mpr hlen)]
    exact map_const_eq_replicate _ m

lemma mkBucket_date (rows : List DRow) (d : Nat) : (mkBucket rows d).date = d := rfl

lemma mkBucket_avg (rows : List DRow) (d : Nat) :
    (mkBucket rows d).avg_faithfulness =
      meanOpt ((rows.filter (fun r => decide (r.date = d))).map DRow.faithfulness_score) := rfl

lemma mkBucket_rate {rows : List DRow} {d : Nat}
    (h : rows.filter (fun r => decide (r.date = d)) ≠ []) :
    (mkBucket rows d).hallucination_rate =
      (((rows.filter (fun r => decide (r.date = d))).filter
          (fun r => decide (r.hallucination_detected = some true))).length : ℚ) /
        ((rows.filter (fun r => decide (r.date = d))).length : ℚ) * 100 := by
  simp only [mkBucket]
  cases hg : (rows.filter (fun r => decide (r.date = d))).length with
  | zero => exact absurd (List.length_eq_zero.mp hg) h
  | succ n => rfl

/-- C1: the claim states that `avgFaithfulness` equals 0 (never null or NaN)
whenever no non-null `faithfulness_score` exists, in particular when
evaluations exist but every score is null.  Evaluating `get_metrics_summary`
at exactly that input — one message whose single evaluation has a null
score — the pandas column mean is NaN, and `round(x or 0, 3)` keeps NaN
because NaN is truthy in Python, so the summary's `avg_faithfulness` is NaN,
not 0. -/
theorem C1_all_null_scores_yield_nan :
    (getMetricsSummary [msgC1] [evalC1] none none 0).avg_faithfulness = PyFloat.nan ∧
    PyFloat.nan ≠ PyFloat.val 0 := by
  decide

/-- C4 (counterexample): a record with a null `faithfulness_score` IS flagged
through the LowFaithfulness rule when the threshold exceeds 1 — here the
flag mask's `fillna(1) < 1.5` comparison fires, and `get_flagged_messages`
returns the null-score record. -/
theorem C4_counterexample :
    lowFaithClause ((3 : ℚ) / 2) evalNullScore = true ∧
    evalNullScore.faithfulness_score = none ∧
    getFlaggedMessages [msgC4] [evalNullScore] 100 ((3 : ℚ) / 2) none none =
      [⟨msgC4, some evalNullScore⟩] := by
  decide

/-- C4 (amended): a null `faithfulness_score` is replaced by 1 before the
threshold comparison, so the LowFaithfulness rule never fires for it as long
as the threshold is at most 1 (the valid range); for thresholds above 1 the
rule fires even on a null score. -/
theorem C4_amended_null_score (e : Evaluation) (t : ℚ)
    (hs : e.faithfulness_score = none) (ht : t ≤ 1) :
    lowFaithClause t e = false := by
  simp only [lowFaithClause, hs, Option.getD_none, decide_eq_false_iff_not]
  exact not_lt.mpr ht

/-- C4 witness: the amended statement at a concrete null-score evaluation and
threshold 1/2. -/
theorem C4_amended_null_score_witness :
    lowFaithClause ((1 : ℚ) / 2) evalNullScore = false :=
  C4_amended_null_score evalNullScore ((1 : ℚ) / 2) rfl (by norm_num)

/-- C6: the claim states that the per-reason aggregate counts match the flag
rules, in particular that a record with score exactly 0 below the threshold
is counted as LowFaithfulness.  At threshold 0.7 the flag mask does flag a
score-0 record, and the Streamlit summary (and the claim's rule) count it,
but the FastAPI handler's `(m.get("faithfulness_score") or 1) < threshold`
treats the falsy score `0.0` as 1 and counts 0 such records. -/
theorem C6_low_faith_count_mismatch :
    getFlaggedMessages [msgC6] [evalC6] 100 ((7 : ℚ) / 10) none none =
      [⟨msgC6, some evalC6⟩] ∧
    low_faith_count_main [⟨msgC6, some evalC6⟩] ((7 : ℚ) / 10) = 0 ∧
    low_faith_count_page [⟨msgC6, some evalC6⟩] ((7 : ℚ) / 10) = 1 ∧
    specLowFaithCount [⟨msgC6, some evalC6⟩] ((7 : ℚ) / 10) = 1 := by
  decide

/-- C7: a faithfulness threshold outside [0,1] is rejected by the FastAPI
query-parameter validation (`Query(0.7, ge=0, le=1)`) before the handler
body runs: the route outcome is a validation failure for every store state,
including an unreachable store (`none`), so no store query is issued. -/
theorem C7_invalid_threshold_rejected (rangeStr : String) (t : ℚ) (now : Nat)
    (store : Option (List Msg × List Evaluation)) (h : t < 0 ∨ 1 < t) :
    flagged_page rangeStr t now store = FlaggedPage.validationFailure := by
  have hcond : ¬ (0 ≤ t ∧ t ≤ 1) := by
    rcases h with h | h
    · exact fun hc => absurd hc.1 (not_le.mpr h)
    · exact fun hc => absurd hc.2 (not_le.mpr h)
  simp only [flagged_page, if_neg hcond]

/-- C7 witness: threshold 2 with an unreachable store is rejected. -/
theorem C7_invalid_threshold_rejected_witness :
    flagged_page "30d" 2 0 none = FlaggedPage.validationFailure :=
  C7_invalid_threshold_rejected "30d" 2 0 none (Or.inr (by norm_num))

/-- C3 (counterexample): the claim states that with an empty evaluation set
and a non-null questionType filter the result is empty.  Instead,
`get_messages_with_evals` returns early when the evaluation frame is empty,
handing back the unfiltered message set, whose record lacks an
evaluation. -/
theorem C3_counterexample :
    joinAndFilter [msgC3] [] none (some "how_to") none false = [⟨msgC3, none⟩] ∧
    ¬ (∀ r ∈ joinAndFilter [msgC3] [] none (some "how_to") none false,
        r.ev.isSome = true) := by
  decide

/-- C3 (amended): when the evaluation set is non-empty, every record returned
under a truthy, non-"All" questionType (or complexity) filter has an
evaluation; when the evaluation set is empty the function instead returns
the unfiltered message set (see the counterexample). -/
theorem C3_amended_filters :
    (∀ (msgs : List Msg) (evals : List Evaluation) (search comp : Option String)
        (qt : String) (hrisk : Bool), evals ≠ [] → qt ≠ "" → qt ≠ "All" →
        ∀ r ∈ joinAndFilter msgs evals search (some qt) comp hrisk,
          r.ev.isSome = true) ∧
    (∀ (msgs : List Msg) (evals : List Evaluation) (search qtopt : Option String)
        (qc : String) (hrisk : Bool), evals ≠ [] → qc ≠ "" → qc ≠ "All" →
        ∀ r ∈ joinAndFilter msgs evals search qtopt (some qc) hrisk,
          r.ev.isSome = true) := by
  constructor
  · intro msgs evals search comp qt hrisk hne h1 h2 r hr
    cases evals with
    | nil => exact absurd rfl hne
    | cons e es =>
      have hr' : r ∈ applyHighRisk hrisk (applyComplexity comp
          (applyQType (some qt) (applySearch search (leftJoinL msgs (e :: es))))) := hr
      have hq : JRec.qtype r = some qt :=
        applyQType_active_pred h1 h2 (mem_applyComplexity (mem_applyHighRisk hr'))
      exact ev_isSome_of_bind_some hq
  · intro msgs evals search qtopt qc hrisk hne h1 h2 r hr
    cases evals with
    | nil => exact absurd rfl hne
    | cons e es =>
      have hr' : r ∈ applyHighRisk hrisk (applyComplexity (some qc)
          (applyQType qtopt (applySearch search (leftJoinL msgs (e :: es))))) := hr
      have hq : JRec.qcomplexity r = some qc :=
        applyComplexity_active_pred h1 h2 (mem_applyHighRisk hr')
      exact ev_isSome_of_bind_some hq

/-- C3 witness: the amended statement at a concrete one-message store whose
evaluation matches the `"how_to"` filter. -/
theorem C3_amended_filters_witness :
    (⟨msgC3, some evalE3⟩ : JRec).ev.isSome = true :=
  C3_amended_filters.1 [msgC3] [evalE3] none none "how_to" false
    (by decide) (by decide) (by decide) ⟨msgC3, some evalE3⟩ (by decide)

/-- C5: a message with no evaluation row never appears in the result of
`get_flagged_messages`, for any threshold: the result is an inner join of
messages with flagged evaluations, so every returned row carries an
evaluation whose `message_id` equals the row's message id. -/
theorem C5_no_eval_never_flagged (msgStore : List Msg) (evalStore : List Evaluation)
    (limit : Nat) (t : ℚ) (sd ed : Option Nat) (m : Msg)
    (hno : ∀ e ∈ evalStore, e.message_id ≠ m.id) :
    ∀ r ∈ getFlaggedMessages msgStore evalStore limit t sd ed, r.msg ≠ m := by
  intro r hr hmsg
  cases hevs : evalStore.isEmpty with
  | true =>
    simp only [getFlaggedMessages, hevs] at hr
    exact absurd hr (List.not_mem_nil r)
  | false =>
    simp only [getFlaggedMessages, hevs] at hr
    cases hfl : (evalStore.filter (flagMask t)).isEmpty with
    | true => simp only [hfl] at hr; exact absurd hr (List.not_mem_nil r)
    | false =>
      simp only [hfl] at hr
      cases hms : (flaggedMsgFetch msgStore
          ((evalStore.filter (flagMask t)).map Evaluation.message_id) sd ed limit).isEmpty with
      | true => simp only [hms] at hr; exact absurd hr (List.not_mem_nil r)
      | false =>
        simp only [hms] at hr
        obtain ⟨e, he, hid⟩ := mem_innerJoinL hr
        exact hno e (List.mem_filter.mp he).1 (hmsg ▸ hid)

/-- C5 witness: with one flagged evaluation belonging to `msgC5flag`, the
message `msgC5` (which has no evaluation row) is not the message of the one
returned record. -/
theorem C5_no_eval_never_flagged_witness :
    (⟨msgC5flag, some evalC5⟩ : JRec).msg ≠ msgC5 :=
  C5_no_eval_never_flagged [msgC5flag, msgC5] [evalC5] 100 0 none none msgC5
    (by decide) ⟨msgC5flag, some evalC5⟩ (by decide)

/-- C8: with all criteria absent (no search, no questionType, no complexity,
highRiskOnly false) the join-and-filter stage is the identity on the left
join; and the left join lists every input message in input order, each
repeated once per matching evaluation (at least once). -/
theorem C8_identity_filter :
    (∀ (msgs : List Msg) (evals : List Evaluation),
      joinAndFilter msgs evals none none none false = leftJoinL msgs evals) ∧
    (∀ (msgs : List Msg) (evals : List Evaluation),
      (leftJoinL msgs evals).map JRec.msg =
        flatMapL (fun m => List.replicate (repCount evals m) m) msgs) ∧
    (∀ (evals : List Evaluation) (m : Msg), 1 ≤ repCount evals m) := by
  refine ⟨?_, ?_, ?_⟩
  · intro msgs evals
    cases evals with
    | nil => rw [leftJoinL_nil]; rfl
    | cons e es => rfl
  · intro msgs evals
    rw [leftJoinL, flatMapL_map]
    simp only [joinOne_map_msg]
  · intro evals m
    exact Nat.le_max_left 1 _

/-- C10: the search mask of `get_messages` is applied in memory after the
`(limit, offset)` page is fetched, so the result is a subset of the fetched
page (and the joined variant only returns messages of the page); at a
concrete two-message store with page size 1, the page filters down to zero
matches even though a matching message exists in the store outside the
page. -/
theorem C10_search_after_page :
    (∀ (msgStore : List Msg) (limit offset : Nat) (search : Option String)
        (sd ed : Option Nat) (m : Msg),
        m ∈ get_messages msgStore limit offset search sd ed →
        m ∈ fetchMessages msgStore sd ed limit offset) ∧
    (∀ (msgStore : List Msg) (evalStore : List Evaluation) (limit offset : Nat)
        (search : Option String) (sd ed : Option Nat) (qt comp : Option String)
        (hrisk : Bool) (r : JRec),
        r ∈ getMessagesWithEvals msgStore evalStore limit offset search sd ed qt comp hrisk →
        r.msg ∈ fetchMessages msgStore sd ed limit offset) ∧
    ((get_messages [msgPg1, msgPg2] 1 0 (some "xyz") none none).length < 1 ∧
      msgPg2 ∈ [msgPg1, msgPg2] ∧ matchesSearch "xyz" msgPg2 = true ∧
      msgPg2 ∉ fetchMessages [msgPg1, msgPg2] none none 1 0) := by
  refine ⟨?_, ?_, ?_⟩
  · intro msgStore limit offset search sd ed m h
    cases search with
    | none => exact h
    | some s =>
      simp only [get_messages] at h
      split at h
      · exact h
      · split at h
        · exact h
        · exact (List.mem_filter.mp h).1
  · intro msgStore evalStore limit offset search sd ed qt comp hrisk r h
    cases hfe : (fetchMessages msgStore sd ed limit offset).isEmpty with
    | true =>
      simp only [getMessagesWithEvals, hfe] at h
      exact absurd h (List.not_mem_nil r)
    | false =>
      simp only [getMessagesWithEvals, hfe] at h
      exact mem_joinAndFilter_msg h
  · decide

/-- C10 witness: the subset statement applied at a concrete store with no
search text: the page's single message is in the fetched page. -/
theorem C10_search_after_page_witness :
    msgPg1 ∈ fetchMessages [msgPg1, msgPg2] none none 1 0 :=
  C10_search_after_page.1 [msgPg1, msgPg2] 1 0 none none none msgPg1 (by decide)

/-- C2 (counterexample): the claim states that a day bucket's hallucination
rate divides by the number of evaluated rows of the day.  At a store with
two same-day messages of which only one is evaluated (with a detected
hallucination), the code produces 50 — it divides by all rows of the day —
while the claim's per-evaluated-rows formula gives 100. -/
theorem C2_counterexample :
    (getDailyMetrics [msgD1, msgD2] [evalD1] 30 (some 0) none 0).map
        DayBucket.hallucination_rate = [50] ∧
    specHallucRatePerEvaluated (dayRowsOf [msgD1, msgD2] [evalD1] 30 (some 0) none 0 100) =
      100 ∧
    (50 : ℚ) ≠ 100 := by
  decide

/-- C2 (amended): each day bucket's hallucination rate equals the number of
rows of that day with `hallucination_detected = true` divided by the number
of ALL rows of that day (evaluated or not), times 100; in particular it is 0
whenever no row of the day has a detected hallucination (hence also when the
day has no evaluated rows). -/
theorem C2_amended_rate (msgStore : List Msg) (evalStore : List Evaluation)
    (days : Nat) (sd ed : Option Nat) (now : Nat) (b : DayBucket)
    (hb : b ∈ getDailyMetrics msgStore evalStore days sd ed now) :
    b.hallucination_rate =
      (((dayRowsOf msgStore evalStore days sd ed now b.date).filter
          (fun r => decide (r.hallucination_detected = some true))).length : ℚ) /
        ((dayRowsOf msgStore evalStore days sd ed now b.date).length : ℚ) * 100 ∧
    ((dayRowsOf msgStore evalStore days sd ed now b.date).filter
        (fun r => decide (r.hallucination_detected = some true)) = [] →
      b.hallucination_rate = 0) := by
  cases hme : (dmMessages msgStore days sd ed now).isEmpty with
  | true =>
    simp only [getDailyMetrics, hme] at hb
    exact absurd hb (List.not_mem_nil b)
  | false =>
    simp only [getDailyMetrics, hme] at hb
    obtain ⟨d, hd, rfl⟩ := List.mem_map.mp hb
    have hdd : d ∈ (dmRows msgStore evalStore days sd ed now).map DRow.date :=
      mem_dedupNat (mem_sortAscNat hd)
    obtain ⟨r0, hr0, hr0d⟩ := List.mem_map.mp hdd
    have hgne : (dmRows msgStore evalStore days sd ed now).filter
        (fun r => decide (r.date = d)) ≠ [] := by
      intro hnil
      have hmem : r0 ∈ (dmRows msgStore evalStore days sd ed now).filter
          (fun r => decide (r.date = d)) :=
        List.mem_filter.mpr ⟨hr0, by simp [hr0d]⟩
      rw [hnil] at hmem
      exact absurd hmem (List.not_mem_nil r0)
    have hdate : (mkBucket (dmRows msgStore evalStore days sd ed now) d).date = d := rfl
    rw [hdate]
    unfold dayRowsOf
    refine ⟨mkBucket_rate hgne, fun hfe => ?_⟩
    rw [mkBucket_rate hgne, hfe]
    simp

/-- C2 witness: the amended statement at a concrete one-message store whose
single evaluation detects a hallucination (rate 100 = 1/1 × 100). -/
theorem C2_amended_rate_witness :
    (mkBucket (dmRows [msgW2] [evalW2] 30 (some 0) none 0) 100).hallucination_rate =
      (((dayRowsOf [msgW2] [evalW2] 30 (some 0) none 0 100).filter
          (fun r => decide (r.hallucination_detected = some true))).length : ℚ) /
        ((dayRowsOf [msgW2] [evalW2] 30 (some 0) none 0 100).length : ℚ) * 100 :=
  (C2_amended_rate [msgW2] [evalW2] 30 (some 0) none 0
    (mkBucket (dmRows [msgW2] [evalW2] 30 (some 0) none 0) 100) (by decide)).1

/-- C9: both policies hold simultaneously — a day bucket whose rows carry no
non-null `faithfulness_score` surfaces a null (NaN) average, while the
metrics summary over a set with zero evaluation rows yields the value 0. -/
theorem C9_daily_null_vs_summary_zero :
    (∀ (msgStore : List Msg) (evalStore : List Evaluation) (days : Nat)
        (sd ed : Option Nat) (now : Nat) (b : DayBucket),
        b ∈ getDailyMetrics msgStore evalStore days sd ed now →
        (∀ r ∈ dayRowsOf msgStore evalStore days sd ed now b.date,
          r.faithfulness_score = none) →
        b.avg_faithfulness = PyFloat.nan) ∧
    (∀ (msgStore : List Msg) (evalStore : List Evaluation) (sd ed : Option Nat)
        (today : Nat),
        msEvals msgStore evalStore sd ed = [] →
        (getMetricsSummary msgStore evalStore sd ed today).avg_faithfulness =
          PyFloat.val 0) := by
  constructor
  · intro msgStore evalStore days sd ed now b hb hall
    cases hme : (dmMessages msgStore days sd ed now).isEmpty with
    | true =>
      simp only [getDailyMetrics, hme] at hb
      exact absurd hb (List.not_mem_nil b)
    | false =>
      simp only [getDailyMetrics, hme] at hb
      obtain ⟨d, hd, rfl⟩ := List.mem_map.mp hb
      have hdate : (mkBucket (dmRows msgStore evalStore days sd ed now) d).date = d := rfl
      rw [hdate] at hall
      unfold dayRowsOf at hall
      rw [mkBucket_avg]
      apply meanOpt_all_none
      intro x hx
      obtain ⟨r, hr, rfl⟩ := List.mem_map.mp hx
      exact hall r hr
  · intro msgStore evalStore sd ed today hev
    cases hme : (msMessages msgStore sd ed).isEmpty with
    | true => simp only [getMetricsSummary, hme]
    | false =>
      simp only [getMetricsSummary, hme, hev, List.isEmpty_nil]
      decide

/-- C9 witness: both parts at concrete stores — one unevaluated message gives
a NaN day-bucket average and a summary average of 0. -/
theorem C9_daily_null_vs_summary_zero_witness :
    (mkBucket (dmRows [msgA9] [] 30 (some 0) none 0) 100).avg_faithfulness = PyFloat.nan ∧
    (getMetricsSummary [msgA9] [] none none 0).avg_faithfulness = PyFloat.val 0 :=
  ⟨C9_daily_null_vs_summary_zero.1 [msgA9] [] 30 (some 0) none 0
      (mkBucket (dmRows [msgA9] [] 30 (some 0) none 0) 100) (by decide) (by decide),
    C9_daily_null_vs_summary_zero.2 [msgA9] [] none none 0 (by decide)⟩
